import Mathlib

/-!
Shallow embedding of the git-legal-collector BOE crawler, a Python program
that harvests the Spanish daily-gazette (BOE) publication feed day by day.
The embedding follows the source modules:

* `parser.py`    — `date_to_timestamp`, `IndexXmlParser.parse`, `decode_item`
* `api_client.py`— `APIClient.get_data`, `APIClient.apply_cooldown`
* `downloader.py`— `BOEDownloader._get_parse_range`, `_process_item`,
                   `download_sequential`
* `csvstorage.py`— `CsvStorage.save_items`
* `storage.py`   — `LawInfo`, `CsvStorage.get_values_for_date`

XML documents are modelled as already-parsed element trees (the
`xml.etree.ElementTree` layer), Python dictionaries as write lists with
first-match lookup, and side effects (sleeps, HTTP requests) as explicit
event traces.
-/

namespace GitLegal

/-- Python value stored in a parsed-record dictionary: a string, an integer
(the derived timestamp), or Python `None` (absent element text). -/
inductive PVal where
  | s (v : String)
  | i (v : Int)
  | none
  deriving DecidableEq, Repr

/-- Python dictionaries are modelled as write lists: each write `d[k] = v`
prepends `(k, v)`, and lookup takes the first matching key, so the most
recent write wins — matching CPython update semantics for the lookups the
program performs. -/
abbrev PDict := List (String × PVal)

/-- Dictionary lookup `d.get(k)` / `d[k]`: the most recent write for `k`. -/
def dget (d : PDict) (k : String) : Option PVal :=
  (d.find? (fun kv => kv.1 == k)).map (fun kv => kv.2)

/-- An `xml.etree.ElementTree` element: tag, attribute list, optional text,
and child elements in document order. -/
inductive Xml where
  | elem (tag : String) (attrib : List (String × String)) (text : Option String)
      (children : List Xml)

def Xml.tag : Xml → String
  | .elem t _ _ _ => t

def Xml.attrib : Xml → List (String × String)
  | .elem _ a _ _ => a

def Xml.text : Xml → Option String
  | .elem _ _ t _ => t

def Xml.children : Xml → List Xml
  | .elem _ _ _ c => c

mutual

/-- All proper descendants of an element in document (preorder) order;
this is the node set scanned by an ElementTree `.//` path step. -/
def descendants : Xml → List Xml
  | .elem _ _ _ cs => descendantsList cs

def descendantsList : List Xml → List Xml
  | [] => []
  | c :: cs => c :: (descendants c ++ descendantsList cs)

end

/-- `element.findall(".//t")`: all descendants with tag `t`, document order. -/
def findallTag (x : Xml) (t : String) : List Xml :=
  (descendants x).filter (fun e => e.tag == t)

/-- `element.find(".//t")`: first descendant with tag `t`, or `None`. -/
def findTag (x : Xml) (t : String) : Option Xml :=
  (findallTag x t).head?

/-- `element.get(key, default)` on the attribute dictionary. -/
def attrD (x : Xml) (k dflt : String) : String :=
  ((x.attrib.find? (fun kv => kv.1 == k)).map (fun kv => kv.2)).getD dflt

/-- `key in element.attrib` followed by `element.attrib[key]`. -/
def attrOpt (x : Xml) (k : String) : Option String :=
  (x.attrib.find? (fun kv => kv.1 == k)).map (fun kv => kv.2)

/-! ## Dates and timestamps (`parser.date_to_timestamp`)

`datetime.strptime(date_str, "%Y%m%d")` is modelled after CPython
`_strptime`: `%Y` compiles to the regex `\d\d\d\d`, `%m` to
`1[0-2]|0[1-9]|[1-9]` and `%d` to `3[01]|[12]\d|0[1-9]|[1-9]`.  The regex
engine returns the first match in backtracking order (alternatives tried
left to right); `strptime` then raises if input remains unconsumed, and the
`datetime` constructor raises when the day exceeds the month length. -/

def digitVal (c : Char) : Nat := c.toNat - 48

def isLeap (y : Nat) : Bool := y % 4 == 0 && (y % 100 != 0 || y % 400 == 0)

def daysInMonth (y m : Nat) : Nat :=
  if m == 2 then (if isLeap y then 29 else 28)
  else if m == 4 || m == 6 || m == 9 || m == 11 then 30
  else 31

/-- The `%Y` step: exactly four digits. -/
def yCandidate : List Char → Option (Nat × List Char)
  | a :: b :: c :: d :: rest =>
    if a.isDigit && b.isDigit && c.isDigit && d.isDigit then
      some (((digitVal a * 10 + digitVal b) * 10 + digitVal c) * 10 + digitVal d, rest)
    else Option.none
  | _ => Option.none

/-- The `%m` step: alternatives of `1[0-2]|0[1-9]|[1-9]` in regex order. -/
def mCandidates : List Char → List (Nat × List Char)
  | [] => []
  | c1 :: rest1 =>
    let twoDigit : List (Nat × List Char) :=
      match rest1 with
      | c2 :: rest2 =>
        (if c1 == '1' && ('0' ≤ c2 && c2 ≤ '2') then [(10 + digitVal c2, rest2)] else []) ++
        (if c1 == '0' && ('1' ≤ c2 && c2 ≤ '9') then [(digitVal c2, rest2)] else [])
      | [] => []
    let oneDigit := if '1' ≤ c1 && c1 ≤ '9' then [(digitVal c1, rest1)] else []
    twoDigit ++ oneDigit

/-- The `%d` step: alternatives of `3[01]|[12]\d|0[1-9]|[1-9]` in regex order. -/
def dCandidates : List Char → List (Nat × List Char)
  | [] => []
  | c1 :: rest1 =>
    let twoDigit : List (Nat × List Char) :=
      match rest1 with
      | c2 :: rest2 =>
        (if c1 == '3' && (c2 == '0' || c2 == '1') then [(30 + digitVal c2, rest2)] else []) ++
        (if (c1 == '1' || c1 == '2') && c2.isDigit then
          [(digitVal c1 * 10 + digitVal c2, rest2)] else []) ++
        (if c1 == '0' && ('1' ≤ c2 && c2 ≤ '9') then [(digitVal c2, rest2)] else [])
      | [] => []
    let oneDigit := if '1' ≤ c1 && c1 ≤ '9' then [(digitVal c1, rest1)] else []
    twoDigit ++ oneDigit

/-- `datetime.strptime(s, "%Y%m%d")`: first regex match in backtracking
order, full consumption required, then date validation (`MINYEAR = 1`, day
at most the month length). -/
def strptimeYmd (s : String) : Option (Nat × Nat × Nat) :=
  match yCandidate s.toList with
  | Option.none => Option.none
  | some (y, rest) =>
    let combos := (mCandidates rest).flatMap
      (fun mc => (dCandidates mc.2).map (fun dc => (mc.1, dc.1, dc.2)))
    match combos.head? with
    | Option.none => Option.none
    | some (m, d, leftover) =>
      if leftover.isEmpty && 1 ≤ y && d ≤ daysInMonth y m then some (y, m, d)
      else Option.none

/-- Days between a proleptic-Gregorian civil date (year at least 1) and
1970-01-01 (the `days_from_civil` algorithm). -/
def daysFromCivil (y m d : Nat) : Int :=
  let yAdj : Nat := if m ≤ 2 then y - 1 else y
  let era : Nat := yAdj / 400
  let yoe : Nat := yAdj % 400
  let mp : Nat := if m > 2 then m - 3 else m + 9
  let doy : Nat := (153 * mp + 2) / 5 + (d - 1)
  let doe : Nat := yoe * 365 + yoe / 4 - yoe / 100 + doy
  (era * 146097 + doe : Int) - 719468

/-- `parser.date_to_timestamp`.  The parsed `datetime` is naive, so
`datetime.timestamp()` interprets it in the local timezone, modelled as the
fixed offset `tzOffset` seconds east of UTC: the returned epoch value is
the UTC-midnight epoch of the date minus that offset.  On a
`ValueError` (strptime failure or invalid date) the function returns 0. -/
def date_to_timestamp (tzOffset : Int) (date_str : String) : Int :=
  match strptimeYmd date_str with
  | some (y, m, d) => daysFromCivil y m d * 86400 - tzOffset
  | Option.none => 0

/-! ## `IndexXmlParser` (`parser.py`) -/

/-- A character of the Python `str.strip()` default whitespace set. -/
def isPySpace (c : Char) : Bool :=
  c == ' ' || c == '\t' || c == '\n' || c == '\r' ||
  c == (Char.ofNat 11) || c == (Char.ofNat 12)

/-- Python `s.strip()`: drop whitespace from both ends. -/
def pyStrip (s : String) : String :=
  String.mk (((s.toList.dropWhile isPySpace).reverse.dropWhile isPySpace).reverse)

/-- `url_elem.text.strip() if url_elem.text else ""`. -/
def stripText : Option String → String
  | some t => pyStrip t
  | Option.none => ""

def urlTypes : List String := ["url_pdf", "url_html", "url_xml"]

def pdfAttrs : List String := ["szBytes", "szKBytes", "pagina_inicial", "pagina_final"]

/-- One iteration of the `for item_elem in epigrafe_elem.findall(".//item")`
loop of `IndexXmlParser.decode_item`: the shared `epigrafe` and `item`
dictionaries are threaded through as the accumulator (the Python code
mutates both in place). -/
def decodeItemStep (epigrafeElem : Xml) (acc : PDict × PDict) (itemElem : Xml) :
    PDict × PDict :=
  let epi := ("epigrafe_nombre", PVal.s (attrD epigrafeElem "nombre" "")) :: acc.1
  let item := urlTypes.foldl (fun it urlType =>
    match findTag itemElem urlType with
    | some urlElem =>
      let it := (urlType, PVal.s (stripText urlElem.text)) :: it
      if urlType == "url_pdf" then
        pdfAttrs.foldl (fun it2 attr =>
          match attrOpt urlElem attr with
          | some v => (urlType ++ "_" ++ attr, PVal.s v) :: it2
          | Option.none => it2) it
      else it
    | Option.none => it) acc.2
  (epi, item)

/-- `IndexXmlParser.decode_item(epigrafe, epigrafe_elem)`: returns the
final `(epigrafe, item)` pair.  The source returns only `item` and mutates
`epigrafe` in place; the caller observes both, so both are returned. -/
def decode_item (epigrafe : PDict) (epigrafeElem : Xml) : PDict × PDict :=
  (findallTag epigrafeElem "item").foldl (decodeItemStep epigrafeElem)
    (epigrafe, [])

/-- The `diario` dictionary: filled from the first `sumario_diario`
descendant when present (the additional `tag == "sumario_diario"` test in
the source is always true for an element found by tag).  Key
`"url_pdf "` carries a trailing space exactly as in the source. -/
def diarioDict (diarioElem : Xml) : PDict :=
  match findTag diarioElem "sumario_diario" with
  | some sd =>
    [("url_pdf ", PVal.s (attrD sd "url_pdf " "")),
     ("identificador", PVal.s (attrD sd "identificador" ""))]
  | Option.none => []

/-- The `seccion_item` selection loop: scans every `seccion` descendant and
keeps the last one whose `codigo` attribute is `"1"`. -/
def selectSeccion (diarioElem : Xml) : Option Xml :=
  (findallTag diarioElem "seccion").foldl
    (fun acc s => if attrD s "codigo" "" == "1" then some s else acc) Option.none

/-- The body of the `for departamento_item in seccion_item.findall(".//departamento")`
loop.  Per `epigrafe` a record is consolidated as
`{**item, **epigrafe, **departamento, **diario, **metadata}`; the
`for ... else` clause always runs (there is no `break`), appending one more
record decoded from the whole `departamento` without epigrafe fields.
Merged dictionaries are concatenated with the highest-precedence dictionary
first, matching first-match lookup. -/
def departamentoRecords (meta diario : PDict) (depElem : Xml) : List PDict :=
  let depDict : PDict :=
    [("departamento_nombre", PVal.s (attrD depElem "nombre" "")),
     ("departamento_codigo", PVal.s (attrD depElem "codigo" ""))]
  let epiRecords := (findallTag depElem "epigrafe").map (fun epiElem =>
    let epi0 : PDict := [("epigrafe_nombre", PVal.s (attrD epiElem "nombre" ""))]
    let res := decode_item epi0 epiElem
    meta ++ diario ++ depDict ++ res.1 ++ res.2)
  let elseItem := (decode_item [] depElem).2
  epiRecords ++ [meta ++ diario ++ depDict ++ elseItem]

/-- Records contributed by one `diario` descendant: a diario without a
`seccion` of `codigo = "1"` is skipped (`continue`). -/
def diarioRecords (meta : PDict) (diarioElem : Xml) : List PDict :=
  let diario := diarioDict diarioElem
  match selectSeccion diarioElem with
  | Option.none => []
  | some sec => (findallTag sec "departamento").flatMap (departamentoRecords meta diario)

/-- `root.find(".//status/code")`: descendants tagged `status`, then their
children tagged `code`, first one in generation order. -/
def statusCodeElem (root : Xml) : Option Xml :=
  ((findallTag root "status").flatMap
    (fun st => st.children.filter (fun c => c.tag == "code"))).head?

/-- The `metadatos` scan: `metadata[child.tag] = child.text` for each child
of the first `metadatos` descendant. -/
def metadataDict (root : Xml) : PDict :=
  match findTag root "metadatos" with
  | some me => me.children.foldl
      (fun m c =>
        (c.tag, match c.text with
                | some t => PVal.s t
                | Option.none => PVal.none) :: m) []
  | Option.none => []

/-- The argument of `date_to_timestamp(metadata.get("fecha_publicacion", ""))`.
A missing key yields the default `""`; a stored `None` text makes
`strptime` raise `TypeError`, which the surrounding `except Exception`
turns into an empty parse result — signalled here by `Option.none` (an
integer value cannot occur for this key; it is mapped to the same error
path). -/
def fechaArg (m : PDict) : Option String :=
  match dget m "fecha_publicacion" with
  | Option.none => some ""
  | some (PVal.s v) => some v
  | some PVal.none => Option.none
  | some (PVal.i _) => Option.none

/-- `IndexXmlParser.parse` over an already-parsed element tree (the
`ET.fromstring` / `ParseError` layer is outside this model): validate the
status code, build metadata with the derived timestamp, and collect the
records of every `diario` descendant. -/
def parse (tzOffset : Int) (root : Xml) : List PDict :=
  match statusCodeElem root with
  | Option.none => []
  | some sc =>
    if sc.text == some "200" then
      let m0 := metadataDict root
      match fechaArg m0 with
      | Option.none => []
      | some fecha =>
        let meta := ("timestamp", PVal.i (date_to_timestamp tzOffset fecha)) :: m0
        (findallTag root "diario").flatMap (diarioRecords meta)
    else []

/-! ## Configuration (`config.py`) and effect traces

Sleeps and HTTP requests are recorded as an explicit event trace; sleep
durations (Python floats holding exact configured values) are modelled as
rationals. -/

/-- `config.Config`, restricted to the fields the core reads, with the
source defaults. -/
structure Config where
  api_base_url : String := "https://www.boe.es/datosabiertos/api/boe/sumario/"
  law_base_url : String := "https://www.boe.es/diario_boe/xml.php?id="
  end_date : String := "19600101"
  cooldown_seconds : Rat := 0
  max_retries : Nat := 3
  retry_delay : Rat := 5
  use_proxy : Bool := false
  concurrent_requests : Nat := 1
  deriving DecidableEq

def defaultConfig : Config := {}

/-- An observable side effect of the client: a `time.sleep` of a given
duration, or an HTTP GET against a URL. -/
inductive Effect where
  | sleep (seconds : Rat)
  | httpGet (url : String)
  deriving DecidableEq, Repr

/-- What one `session.get` call produces: a response with a status code and
body text, or a raised `requests.RequestException` (timeout or connection
error). -/
inductive HttpAttempt where
  | resp (status : Nat) (text : String)
  | exn
  deriving DecidableEq, Repr

/-- Whether the first character list starts the second. -/
def startsWithChars : List Char → List Char → Bool
  | [], _ => true
  | _ :: _, [] => false
  | n :: ns, h :: hs => n == h && startsWithChars ns hs

/-- Whether the first character list occurs inside the second. -/
def hasSubChars : List Char → List Char → Bool
  | needle, [] => needle.isEmpty
  | needle, h :: hs => startsWithChars needle (h :: hs) || hasSubChars needle hs

/-- Python `"xml" in text`: substring containment. -/
def containsXml (t : String) : Bool := hasSubChars "xml".toList t.toList

/-- `response.text and "xml" in response.text`. -/
def textOk (t : String) : Bool := (t != "") && containsXml t

/-- The observable outcome of one `APIClient.get_data` call: the returned
`(status_code, response_text)` pair, the number of `session.get` attempts
performed, and the trace of sleeps and requests. -/
structure FetchRun where
  status : Nat
  text : Option String
  attempts : Nat
  effects : List Effect
  deriving DecidableEq, Repr

/-- The `for attempt in range(max_retries + 1)` loop of
`APIClient.get_data`.  `remaining` counts the loop iterations left;
attempts after the first are preceded by a `retry_delay` sleep; a 200
response with a non-XML body sleeps `retry_delay` once more before the
next iteration; falling out of the loop returns `(0, None)`. -/
def get_data_go (cfg : Config) (url : String) (responses : Nat → HttpAttempt) :
    Nat → Nat → FetchRun
  | _, 0 => ⟨0, Option.none, 0, []⟩
  | attempt, remaining + 1 =>
    let pre : List Effect := if attempt > 0 then [Effect.sleep cfg.retry_delay] else []
    let tried := pre ++ [Effect.httpGet url]
    match responses attempt with
    | HttpAttempt.resp s t =>
      if s == 200 then
        if textOk t then ⟨s, some t, 1, tried⟩
        else
          let r := get_data_go cfg url responses (attempt + 1) remaining
          ⟨r.status, r.text, r.attempts + 1,
            tried ++ [Effect.sleep cfg.retry_delay] ++ r.effects⟩
      else if s == 404 then ⟨s, Option.none, 1, tried⟩
      else
        let r := get_data_go cfg url responses (attempt + 1) remaining
        ⟨r.status, r.text, r.attempts + 1, tried ++ r.effects⟩
    | HttpAttempt.exn =>
      let r := get_data_go cfg url responses (attempt + 1) remaining
      ⟨r.status, r.text, r.attempts + 1, tried ++ r.effects⟩

/-- `APIClient.get_data(indexer, target)`: builds the URL from the target
and runs the attempt loop; `responses` gives the behaviour of the endpoint
on the n-th attempt. -/
def get_data (cfg : Config) (targetIsIndex : Bool) (indexer : String)
    (responses : Nat → HttpAttempt) : FetchRun :=
  let url := if targetIsIndex then cfg.api_base_url ++ indexer
             else cfg.law_base_url ++ indexer
  get_data_go cfg url responses 0 (cfg.max_retries + 1)

/-- `APIClient.apply_cooldown`: an unconditional sleep of
`cooldown_seconds`; no configuration field other than the duration is
consulted. -/
def apply_cooldown (cfg : Config) : List Effect :=
  [Effect.sleep cfg.cooldown_seconds]

/-! ## Downloader (`downloader.py`) -/

/-- A `datetime.date`. -/
structure Date where
  year : Nat
  month : Nat
  day : Nat
  deriving DecidableEq, Repr

/-- `date` comparison `start_date <= current_date` used by the range loop. -/
def dateLE (a b : Date) : Bool :=
  (a.year < b.year) ||
  (a.year == b.year &&
    ((a.month < b.month) || (a.month == b.month && a.day ≤ b.day)))

/-- `current_date - datetime.timedelta(days=1)` for dates with year at
least 1 (Python raises `OverflowError` below `date.min`; the fuelled range
loop below never reaches that point on the inputs considered). -/
def prevDay (dt : Date) : Date :=
  if dt.day ≥ 2 then ⟨dt.year, dt.month, dt.day - 1⟩
  else if dt.month ≥ 2 then ⟨dt.year, dt.month - 1, daysInMonth dt.year (dt.month - 1)⟩
  else ⟨dt.year - 1, 12, 31⟩

/-- Zero-padded decimal rendering, as in `strftime`. -/
def padNum (w n : Nat) : String :=
  String.mk (List.replicate (w - (Nat.repr n).length) '0') ++ Nat.repr n

/-- `APIClient.get_date_str`: `date.strftime("%Y%m%d")`. -/
def get_date_str (dt : Date) : String :=
  padNum 4 dt.year ++ padNum 2 dt.month ++ padNum 2 dt.day

/-- A measure that `prevDay` strictly decreases for every date with year at
least 1, used to fuel the descending while loop. -/
def dateOrd (dt : Date) : Nat := dt.year * 500 + dt.month * 31 + dt.day

/-- The `while current_date >= start_date` loop of the index branch of
`BOEDownloader._get_parse_range`: emit the current date string, step one
day back.  Fuel `dateOrd end + 1` bounds the loop; `prevDay` strictly
decreases `dateOrd` while the year stays at least 1, so the fuel is never
exhausted before the loop condition fails on the inputs considered. -/
def rangeGo (startD : Date) : Nat → Date → List String
  | 0, _ => []
  | fuel + 1, cur =>
    if dateLE startD cur then get_date_str cur :: rangeGo startD fuel (prevDay cur)
    else []

/-- The descending day range from `endD` down to `startD`, inclusive. -/
def dateRangeDesc (startD endD : Date) : List String :=
  rangeGo startD (dateOrd endD + 1) endD

/-- Python exceptions surfaced by the downloader model. -/
inductive PyError where
  | typeError
  | valueError
  deriving DecidableEq, Repr

/-- The `datetime.date | str` union accepted by the `default` parameter of
`date_literal_to_datetime`. -/
inductive DateOrStr where
  | d (v : Date)
  | s (v : String)
  deriving DecidableEq, Repr

/-- Python `int()` on a literal consisting of decimal digits; any other
input (in particular the empty slice of a short literal) raises
`ValueError`, modelled as `Option.none`. -/
def digitsToNat : List Char → Option Nat
  | [] => Option.none
  | cs =>
    if cs.all Char.isDigit then
      some (cs.foldl (fun n c => n * 10 + digitVal c) 0)
    else Option.none

/-- The slicing body of `date_literal_to_datetime` for a nonempty literal:
`int` of the three slices followed by the `datetime.date` constructor
(which validates year, month and day); an unparsable literal or an invalid
date raises `ValueError`. -/
def sliceDate (s : String) : Except PyError Date :=
  let cs := s.toList
  match digitsToNat (cs.take 4), digitsToNat ((cs.drop 4).take 2),
      digitsToNat ((cs.drop 6).take 2) with
  | some y, some m, some d =>
    if 1 ≤ y && y ≤ 9999 && 1 ≤ m && m ≤ 12 && 1 ≤ d && d ≤ daysInMonth y m then
      Except.ok ⟨y, m, d⟩
    else Except.error PyError.valueError
  | _, _, _ => Except.error PyError.valueError

/-- `downloader.date_literal_to_datetime(date_literal, default)` — BOTH
parameters are required (neither has a default value).  An empty (falsy)
literal falls back to the default: a string default re-enters the function
with today as the new default (that single recursive call is inlined here;
its own default is always a date, so the recursion depth is at most two);
a date default is returned as is.  A nonempty literal is sliced and
validated. -/
def date_literal_to_datetime (today : Date) (date_literal : String)
    (default : DateOrStr) : Except PyError Date :=
  if date_literal = "" then
    match default with
    | DateOrStr.s v => if v = "" then Except.ok today else sliceDate v
    | DateOrStr.d dv => Except.ok dv
  else sliceDate date_literal

/-- A Python CALL of `date_literal_to_datetime` with a positional argument
list: Python binds the list to the two required parameters
(`date_literal`, `default`) and raises `TypeError` when both are not
supplied, without entering the body.  A non-string first argument cannot
arise from the call sites in the source. -/
def call_date_literal_to_datetime (today : Date) (args : List DateOrStr) :
    Except PyError Date :=
  match args with
  | [DateOrStr.s dl, dflt] => date_literal_to_datetime today dl dflt
  | _ => Except.error PyError.typeError

/-- The index branch of `BOEDownloader._get_parse_range`.  It resolves the
default upper bound from the resume state (the `or` of the loaded string
and today), then executes
`start_date = date_literal_to_datetime(self.config.end_date)` — a call
supplying ONE positional argument to the two-required-parameter function —
which raises `TypeError` unconditionally, before the second call and the
descending `while current_date >= start_date` loop (modelled by
`dateRangeDesc`) can run.  An absent (None) end literal is modelled as
`""` (both are falsy in the body). -/
def get_parse_range_index (today : Date) (resumeState : Option String)
    (configEndDate endLit : String) : Except PyError (List String) :=
  let default_start_date : DateOrStr :=
    match resumeState with
    | some r => if r = "" then DateOrStr.d today else DateOrStr.s r
    | Option.none => DateOrStr.d today
  match call_date_literal_to_datetime today [DateOrStr.s configEndDate] with
  | Except.error e => Except.error e
  | Except.ok start_date =>
    match call_date_literal_to_datetime today
        [DateOrStr.s endLit, default_start_date] with
    | Except.error e => Except.error e
    | Except.ok end_date => Except.ok (dateRangeDesc start_date end_date)

/-- The observable state of the resume checkpoint file: its current
content (`last_date`), plus the log of every value written to it, in write
order. -/
structure CrawlState where
  checkpoint : Option String
  writes : List String
  deriving DecidableEq, Repr

/-- The outcome of one `BOEDownloader._process_item` call: the updated
checkpoint state, the saved-item count returned, and the effect trace. -/
structure StepResult where
  state : CrawlState
  saved : Nat
  effects : List Effect
  deriving DecidableEq, Repr

/-- Python truthiness of `response_text` (`None` and `""` are falsy). -/
def textTruthy : Option String → Bool
  | some t => t != ""
  | Option.none => false

/-- `BOEDownloader._process_item` for the index target: apply the cooldown,
fetch via `get_data`, and then (a) on a 200 response with truthy text,
parse and store (abstracted as `saveCount` on the body) and save the resume
state; (b) on any other nonzero status (404), save the resume state and
return 0; (c) on status 0 (client-side failure after exhausting retries),
save nothing and return 0. -/
def process_item (cfg : Config) (saveCount : String → Nat)
    (responses : Nat → HttpAttempt) (st : CrawlState) (indexer : String) :
    StepResult :=
  let run := get_data cfg true indexer responses
  let fx := apply_cooldown cfg ++ run.effects
  if run.status == 200 && textTruthy run.text then
    ⟨⟨some indexer, st.writes ++ [indexer]⟩, saveCount (run.text.getD ""), fx⟩
  else if run.status != 0 then
    ⟨⟨some indexer, st.writes ++ [indexer]⟩, 0, fx⟩
  else ⟨st, 0, fx⟩

/-- The day loop of `BOEDownloader.download_sequential` (the surrounding
`try/except` never fires in this model, since the modelled
`_process_item` raises nothing). -/
def download_sequential_go (cfg : Config) (saveCount : String → Nat)
    (responses : String → Nat → HttpAttempt) :
    CrawlState → Nat → List String → CrawlState × Nat
  | st, total, [] => (st, total)
  | st, total, d :: ds =>
    let r := process_item cfg saveCount (responses d) st d
    download_sequential_go cfg saveCount responses r.state (total + r.saved) ds

/-- `BOEDownloader.download_sequential` for the index target, starting from
a fresh store (no checkpoint yet).  The range computation runs OUTSIDE the
per-day `try/except` (which wraps only `_process_item`), so an exception
raised inside `_get_parse_range` propagates to the caller and no day is
processed. -/
def download_sequential (cfg : Config) (today : Date)
    (resumeState : Option String) (saveCount : String → Nat)
    (responses : String → Nat → HttpAttempt) (endLit : String) :
    Except PyError (CrawlState × Nat) :=
  match get_parse_range_index today resumeState cfg.end_date endLit with
  | Except.error e => Except.error e
  | Except.ok range =>
    Except.ok (download_sequential_go cfg saveCount responses ⟨Option.none, []⟩ 0 range)

/-! ## Record store (`storage.py`, `csvstorage.py`) -/

/-- The `storage.LawInfo` dataclass.  `fecha_publicacion` is the integer
publication date as read back from the CSV column that
`get_values_for_date` compares and aggregates. -/
structure LawInfo where
  fecha_publicacion : Int
  timestamp : Option Int := Option.none
  identificador : Option String := Option.none
  control : Option String := Option.none
  titulo : Option String := Option.none
  numero_diario : Option String := Option.none
  url_html : Option String := Option.none
  url_xml : Option String := Option.none
  url_pdf : Option String := Option.none
  seccion_codigo : Option String := Option.none
  seccion_nombre : Option String := Option.none
  departamento_codigo : Option String := Option.none
  departamento_nombre : Option String := Option.none
  epigrafe_nombre : Option String := Option.none
  deriving DecidableEq, Repr

/-- `self.data.fecha_publicacion.max()` over a nonempty column. -/
def colMax (l : List Int) : Int := l.foldl max (l.headD 0)

/-- `self.data.fecha_publicacion.min()` over a nonempty column. -/
def colMin (l : List Int) : Int := l.foldl min (l.headD 0)

/-- `storage.CsvStorage.get_values_for_date`: `None` when the store is
empty or the date lies outside the stored min/max publication dates, else
the rows whose publication date equals `date`, in store order. -/
def get_values_for_date (data : List LawInfo) (date : Int) : Option (List LawInfo) :=
  let col := data.map (fun r => r.fecha_publicacion)
  if data.isEmpty || date > colMax col || date < colMin col then Option.none
  else some (data.filter (fun r => r.fecha_publicacion == date))

/-- The header row of a freshly created CSV store
(`csvstorage.CsvStorage._ensure_csv_exists`). -/
def csvHeaders : List String :=
  ["fecha_publicacion", "identificador", "control", "titulo", "url_pdf",
   "url_pdf_szBytes", "url_pdf_szKBytes", "url_pdf_pagina_inicial",
   "url_pdf_pagina_final", "url_html", "url_xml", "seccion_codigo",
   "seccion_nombre", "departamento_codigo", "departamento_nombre",
   "epigrafe_nombre"]

/-- `{k: v for k, v in item.items() if k in headers}` — the row handed to
`csv.DictWriter.writerow` (headers not present in the item are emitted as
empty cells, i.e. absent keys). -/
def filterToHeaders (headers : List String) (item : PDict) : PDict :=
  item.filter (fun kv => headers.contains kv.1)

/-- `csvstorage.CsvStorage.save_items`: an empty batch is a no-op
returning 0; otherwise every item is appended to the CSV after key
filtering and the batch length is returned.  No validation of any field
(in particular of `identificador`) is performed.  The `except` branch for
I/O failure is outside this model. -/
def save_items (headers : List String) (items : List PDict) : List PDict × Nat :=
  if items.isEmpty then ([], 0)
  else (items.map (filterToHeaders headers), items.length)

/-! ## Concrete inputs used by the claim theorems -/

/-- A transient attempt in the sense of the retry claims: a response whose
status is neither 200 nor 404, or a raised connection error / timeout. -/
def transientAttempt : HttpAttempt → Bool
  | HttpAttempt.resp s _ => s != 200 && s != 404
  | HttpAttempt.exn => true

/-- The minimal index XML of the spec example: status code "200", one
section with `codigo="1"`, one department (`codigo="A"`,
`nombre="Ministry"`), one item with identifier `BOE-A-2024-1` (as both an
`id` attribute and an `identificador` child element) and a PDF url element
with `szBytes="12345"`. -/
def exampleXml : Xml := .elem "response" [] Option.none [
  .elem "status" [] Option.none [.elem "code" [] (some "200") []],
  .elem "data" [] Option.none [
    .elem "sumario" [] Option.none [
      .elem "diario" [("numero", "1")] Option.none [
        .elem "seccion" [("codigo", "1"), ("nombre", "I. Disposiciones generales")]
            Option.none [
          .elem "departamento" [("codigo", "A"), ("nombre", "Ministry")] Option.none [
            .elem "item" [("id", "BOE-A-2024-1")] Option.none [
              .elem "identificador" [] (some "BOE-A-2024-1") [],
              .elem "url_pdf" [("szBytes", "12345")]
                  (some "https://www.boe.es/boe/dias/2024/01/01/pdfs/BOE-A-2024-1.pdf")
                  []]]]]]]]

/-- A section element with `codigo="2"` holding a department with an item. -/
def otherSeccion : Xml :=
  .elem "seccion" [("codigo", "2"), ("nombre", "Otras secciones")] Option.none [
    .elem "departamento" [("codigo", "B"), ("nombre", "Dept")] Option.none [
      .elem "item" [("id", "BOE-B-2024-9")] Option.none [
        .elem "url_pdf" [("szBytes", "7")] (some "https://example.org/x.pdf") []]]]

/-- A valid index document whose only diario has no section of codigo "1"
(its single section has codigo "2" and does contain an item). -/
def badSectionXml : Xml := .elem "response" [] Option.none [
  .elem "status" [] Option.none [.elem "code" [] (some "200") []],
  .elem "data" [] Option.none [
    .elem "sumario" [] Option.none [
      .elem "diario" [] Option.none [otherSeccion]]]]

/-- The single diario of `badSectionXml`. -/
def badDiario : Xml := .elem "diario" [] Option.none [otherSeccion]

/-- A seccion of codigo "1" and a diario holding it, used to witness the
selection part of the section-filter claim. -/
def goodSeccion : Xml := .elem "seccion" [("codigo", "1")] Option.none []

/-- A diario whose only section is `goodSeccion`. -/
def goodDiario : Xml := .elem "diario" [] Option.none [goodSeccion]

/-- A departamento with one item, placed under the nested codigo-2
seccion below. -/
def nestedDep : Xml :=
  .elem "departamento" [("codigo", "NB"), ("nombre", "Nested dept")] Option.none [
    .elem "item" [("id", "BOE-N-2024-1")] Option.none [
      .elem "url_pdf" [("szBytes", "9")] (some "https://example.org/n.pdf") []]]

/-- A seccion with codigo "2" holding `nestedDep`. -/
def nestedSub : Xml :=
  .elem "seccion" [("codigo", "2"), ("nombre", "Anidada")] Option.none [nestedDep]

/-- A seccion with codigo "1" whose only content is the codigo-2 seccion
`nestedSub`. -/
def nestedSel : Xml := .elem "seccion" [("codigo", "1")] Option.none [nestedSub]

/-- A valid index document whose diario has a codigo-1 seccion containing
a codigo-2 seccion with a department and an item. -/
def nestedSeccionXml : Xml := .elem "response" [] Option.none [
  .elem "status" [] Option.none [.elem "code" [] (some "200") []],
  .elem "data" [] Option.none [
    .elem "sumario" [] Option.none [
      .elem "diario" [] Option.none [nestedSel]]]]

/-! # Theorems -/

/-! ## Helper lemmas -/

theorem selectSeccion_fold_some (s : Xml) :
    ∀ (l : List Xml) (init : Option Xml),
      l.foldl (fun acc e => if attrD e "codigo" "" == "1" then some e else acc)
          init = some s →
      init = some s ∨ (s ∈ l ∧ attrD s "codigo" "" = "1") := by
  intro l
  induction l with
  | nil => intro init h; exact Or.inl h
  | cons x xs ih =>
    intro init h
    rw [List.foldl_cons] at h
    rcases ih _ h with h' | h'
    · by_cases hx : (attrD x "codigo" "" == "1") = true
      · rw [if_pos hx] at h'
        refine Or.inr ⟨?_, ?_⟩
        · rw [← Option.some_inj.mp h']; exact List.mem_cons_self x xs
        · rw [← Option.some_inj.mp h']; exact beq_iff_eq.mp hx
      · rw [if_neg hx] at h'; exact Or.inl h'
    · exact Or.inr ⟨List.mem_cons_of_mem _ h'.1, h'.2⟩

theorem selectSeccion_fold_none :
    ∀ (l : List Xml) (init : Option Xml),
      (∀ e ∈ l, ¬ attrD e "codigo" "" = "1") →
      l.foldl (fun acc e => if attrD e "codigo" "" == "1" then some e else acc)
          init = init := by
  intro l
  induction l with
  | nil => intro init _; rfl
  | cons x xs ih =>
    intro init h
    rw [List.foldl_cons, if_neg, ih _ (fun e he => h e (List.mem_cons_of_mem _ he))]
    simpa using h x (List.mem_cons_self x xs)

theorem selectSeccion_eq_some (d s : Xml) (h : selectSeccion d = some s) :
    s ∈ findallTag d "seccion" ∧ attrD s "codigo" "" = "1" := by
  unfold selectSeccion at h
  rcases selectSeccion_fold_some s _ _ h with h' | h'
  · cases h'
  · exact h'

theorem selectSeccion_eq_none (d : Xml)
    (h : ∀ s ∈ findallTag d "seccion", ¬ attrD s "codigo" "" = "1") :
    selectSeccion d = Option.none := by
  unfold selectSeccion
  exact selectSeccion_fold_none _ _ h

theorem get_data_go_transient (cfg : Config) (url : String)
    (responses : Nat → HttpAttempt)
    (h : ∀ i, transientAttempt (responses i) = true) :
    ∀ (remaining attempt : Nat),
      get_data_go cfg url responses attempt remaining =
        ⟨0, Option.none, remaining,
          (get_data_go cfg url responses attempt remaining).effects⟩ := by
  intro remaining
  induction remaining with
  | zero => intro attempt; rfl
  | succ n ih =>
    intro attempt
    have ht := h attempt
    unfold get_data_go
    cases hr : responses attempt with
    | exn =>
      simp only []
      rw [ih (attempt + 1)]
    | resp s t =>
      rw [hr] at ht
      unfold transientAttempt at ht
      rw [Bool.and_eq_true, bne_iff_ne, bne_iff_ne] at ht
      simp only [show (s == 200) = false from by simpa using ht.1,
        show (s == 404) = false from by simpa using ht.2, Bool.false_eq_true,
        if_false]
      rw [ih (attempt + 1)]

theorem foldl_max_le_iff (l : List Int) (a d : Int) :
    d ≤ l.foldl max a ↔ d ≤ a ∨ ∃ x ∈ l, d ≤ x := by
  induction l generalizing a with
  | nil => simp
  | cons x xs ih =>
    rw [List.foldl_cons, ih]
    constructor
    · rintro (h | h)
      · rcases le_max_iff.mp h with h' | h'
        · exact Or.inl h'
        · exact Or.inr ⟨x, by simp, h'⟩
      · rcases h with ⟨y, hy, hdy⟩
        exact Or.inr ⟨y, by simp [hy], hdy⟩
    · rintro (h | ⟨y, hy, hdy⟩)
      · exact Or.inl (le_max_iff.mpr (Or.inl h))
      · rcases List.mem_cons.mp hy with rfl | hy'
        · exact Or.inl (le_max_iff.mpr (Or.inr hdy))
        · exact Or.inr ⟨y, hy', hdy⟩

theorem foldl_min_le_iff (l : List Int) (a d : Int) :
    l.foldl min a ≤ d ↔ a ≤ d ∨ ∃ x ∈ l, x ≤ d := by
  induction l generalizing a with
  | nil => simp
  | cons x xs ih =>
    rw [List.foldl_cons, ih]
    constructor
    · rintro (h | h)
      · rcases min_le_iff.mp h with h' | h'
        · exact Or.inl h'
        · exact Or.inr ⟨x, by simp, h'⟩
      · rcases h with ⟨y, hy, hdy⟩
        exact Or.inr ⟨y, by simp [hy], hdy⟩
    · rintro (h | ⟨y, hy, hdy⟩)
      · exact Or.inl (min_le_iff.mpr (Or.inl h))
      · rcases List.mem_cons.mp hy with rfl | hy'
        · exact Or.inl (min_le_iff.mpr (Or.inr hdy))
        · exact Or.inr ⟨y, hy', hdy⟩

theorem le_colMax_iff (l : List Int) (hl : l ≠ []) (d : Int) :
    d ≤ colMax l ↔ ∃ x ∈ l, d ≤ x := by
  cases l with
  | nil => cases hl rfl
  | cons a as =>
    unfold colMax
    rw [show (a :: as).headD 0 = a from rfl, foldl_max_le_iff]
    constructor
    · rintro (h | h)
      · exact ⟨a, by simp, h⟩
      · exact h
    · exact fun h => Or.inr h

theorem colMin_le_iff (l : List Int) (hl : l ≠ []) (d : Int) :
    colMin l ≤ d ↔ ∃ x ∈ l, x ≤ d := by
  cases l with
  | nil => cases hl rfl
  | cons a as =>
    unfold colMin
    rw [show (a :: as).headD 0 = a from rfl, foldl_min_le_iff]
    constructor
    · rintro (h | h)
      · exact ⟨a, by simp, h⟩
      · exact h
    · exact fun h => Or.inr h

theorem dget_filter_none (headers : List String) (d : PDict) (k : String)
    (h : dget d k = Option.none) :
    dget (filterToHeaders headers d) k = Option.none := by
  unfold dget filterToHeaders at *
  rw [Option.map_eq_none'] at h ⊢
  rw [List.find?_eq_none] at h ⊢
  intro kv hkv
  exact h kv (List.mem_of_mem_filter hkv)

theorem gvfd_eq_none_iff (data : List LawInfo) (date : Int) :
    get_values_for_date data date = Option.none ↔
      (data = [] ∨
        date > colMax (data.map (fun r => r.fecha_publicacion)) ∨
        date < colMin (data.map (fun r => r.fecha_publicacion))) := by
  unfold get_values_for_date
  dsimp only
  split
  next hcond =>
    simp only [Bool.or_eq_true, decide_eq_true_eq, List.isEmpty_iff] at hcond
    simpa using or_assoc.mp hcond
  next hcond =>
    simp only [Bool.or_eq_true, decide_eq_true_eq, List.isEmpty_iff, not_or] at hcond
    constructor
    · intro hsome
      exact absurd hsome (Option.some_ne_none _)
    · rintro (h | h | h)
      · exact absurd h hcond.1.1
      · exact absurd h hcond.1.2
      · exact absurd h hcond.2

theorem gvfd_eq_some (data : List LawInfo) (date : Int) (l : List LawInfo)
    (h : get_values_for_date data date = some l) :
    l = data.filter (fun r => r.fecha_publicacion == date) := by
  unfold get_values_for_date at h
  dsimp only at h
  split at h
  next => cases h
  next => exact (Option.some_inj.mp h).symm

theorem get_data_go_congr (cfg1 cfg2 : Config) (url : String)
    (responses : Nat → HttpAttempt) (hrd : cfg1.retry_delay = cfg2.retry_delay) :
    ∀ (remaining attempt : Nat),
      get_data_go cfg1 url responses attempt remaining =
        get_data_go cfg2 url responses attempt remaining := by
  intro remaining
  induction remaining with
  | zero => intro attempt; rfl
  | succ k ih =>
    intro attempt
    unfold get_data_go
    rw [hrd, ih (attempt + 1)]

/-! ## Claim theorems -/

/-- C1 (counterexample): parsing the minimal index XML of the spec example
produces no record whose `identificador` is `"BOE-A-2024-1"` — the parser
never extracts identifiers from `item` elements, so the claimed record does
not exist. -/
theorem C1_counterexample :
    ¬ ∃ r ∈ parse 0 exampleXml, dget r "identificador" = some (PVal.s "BOE-A-2024-1") := by
  decide

/-- C1 (amended): parsing the minimal index XML of the spec example yields
exactly one record, with `departamento_codigo = "A"`,
`departamento_nombre = "Ministry"` and `url_pdf_szBytes = "12345"` as
claimed, but with no `identificador` field at all: `decode_item` copies
only the url elements and their attributes, and the record-level
`identificador` key is written only from a `sumario_diario` attribute,
absent here. -/
theorem C1_example_parse :
    (parse 0 exampleXml).length = 1 ∧
    (parse 0 exampleXml).map (fun r => dget r "departamento_codigo") =
      [some (PVal.s "A")] ∧
    (parse 0 exampleXml).map (fun r => dget r "departamento_nombre") =
      [some (PVal.s "Ministry")] ∧
    (parse 0 exampleXml).map (fun r => dget r "url_pdf_szBytes") =
      [some (PVal.s "12345")] ∧
    (parse 0 exampleXml).map (fun r => dget r "identificador") = [Option.none] := by
  decide

/-- C2 (counterexample): the sequential crawl the claim quantifies over —
config lower bound "20230101", explicit end "20230105", an endpoint that
would answer every day — terminates with a `TypeError` raised inside
`_get_parse_range` (the one-argument call to the two-required-parameter
`date_literal_to_datetime` at the start of the index branch) and returns
no crawl result at all: no day is processed and no checkpoint is written,
so the stored checkpoint does not equal 20230105 after the run. -/
theorem C2_counterexample :
    download_sequential { defaultConfig with end_date := "20230101" } ⟨2024, 6, 1⟩
        Option.none (fun _ => 0) (fun _ _ => HttpAttempt.resp 404 "") "20230105" =
      Except.error PyError.typeError := by
  rfl

/-- C2 (amended): EVERY sequential index crawl — over [20230101..20230105]
or any other range — raises `TypeError` before processing any day:
`_get_parse_range` calls `date_literal_to_datetime(self.config.end_date)`
with one positional argument while the function requires two, the
exception propagates out of `download_sequential` (whose `try/except`
covers only the per-day body), no fetch occurs and no checkpoint value is
ever written.  The second conjunct shows that the two-argument call binds
and runs the body, so the failure is specifically the missing `default`
argument. -/
theorem C2_range_type_error :
    (∀ (cfg : Config) (today : Date) (resumeState : Option String)
        (saveCount : String → Nat) (responses : String → Nat → HttpAttempt)
        (endLit : String),
      download_sequential cfg today resumeState saveCount responses endLit =
        Except.error PyError.typeError) ∧
    (∀ today : Date,
      call_date_literal_to_datetime today
          [DateOrStr.s "20230101", DateOrStr.d ⟨2024, 1, 1⟩] =
        Except.ok ⟨2023, 1, 1⟩) := by
  constructor
  · intro cfg today resumeState saveCount responses endLit
    rfl
  · intro today
    rfl

/-- C3: against an endpoint whose every attempt is transient (status
neither 200 nor 404, or a connection error / timeout), `get_data` performs
exactly `max_retries + 1` attempts and returns the exhausted outcome
`(0, None)`. -/
theorem C3_retry_bound (cfg : Config) (targetIsIndex : Bool) (indexer : String)
    (responses : Nat → HttpAttempt)
    (h : ∀ i, transientAttempt (responses i) = true) :
    (get_data cfg targetIsIndex indexer responses).attempts = cfg.max_retries + 1 ∧
    (get_data cfg targetIsIndex indexer responses).status = 0 ∧
    (get_data cfg targetIsIndex indexer responses).text = Option.none := by
  unfold get_data
  rw [get_data_go_transient cfg _ responses h (cfg.max_retries + 1) 0]
  exact ⟨rfl, rfl, rfl⟩

/-- C3 witness: a timeout on every attempt under the default
configuration. -/
theorem C3_retry_bound_witness :
    (get_data defaultConfig true "20230101" (fun _ => HttpAttempt.exn)).attempts =
      defaultConfig.max_retries + 1 ∧
    (get_data defaultConfig true "20230101" (fun _ => HttpAttempt.exn)).status = 0 ∧
    (get_data defaultConfig true "20230101" (fun _ => HttpAttempt.exn)).text =
      Option.none :=
  C3_retry_bound defaultConfig true "20230101" (fun _ => HttpAttempt.exn)
    (fun _ => rfl)

/-- C4 (counterexample): a day whose index fetch exhausts all retries
(status 0) does NOT advance the checkpoint: `_process_item` saves the
resume state only when the status is nonzero, so the state is left
untouched. -/
theorem C4_counterexample :
    (process_item defaultConfig (fun _ => 0) (fun _ => HttpAttempt.exn)
        ⟨Option.none, []⟩ "20230103").state.checkpoint ≠ some "20230103" := by
  decide

/-- C4 (amended): a NotFound (404) index fetch yields zero items and still
advances the checkpoint to that day, while an Exhausted (status 0) index
fetch yields zero items and leaves the checkpoint state unchanged; in both
cases `_process_item` returns normally (the day completes and the crawl
moves on). -/
theorem C4_day_completion (cfg : Config) (saveCount : String → Nat)
    (responses : Nat → HttpAttempt) (st : CrawlState) (indexer : String) :
    ((get_data cfg true indexer responses).status = 404 →
      process_item cfg saveCount responses st indexer =
        ⟨⟨some indexer, st.writes ++ [indexer]⟩, 0,
          apply_cooldown cfg ++ (get_data cfg true indexer responses).effects⟩) ∧
    ((get_data cfg true indexer responses).status = 0 →
      process_item cfg saveCount responses st indexer =
        ⟨st, 0, apply_cooldown cfg ++ (get_data cfg true indexer responses).effects⟩) := by
  constructor <;> intro h <;> unfold process_item <;> simp [h]

/-- C4 witness: the amended theorem at a 404 endpoint and at an
always-failing endpoint. -/
theorem C4_day_completion_witness :
    process_item defaultConfig (fun _ => 0) (fun _ => HttpAttempt.resp 404 "")
        ⟨Option.none, []⟩ "20230104" =
      ⟨⟨some "20230104", ["20230104"]⟩, 0,
        apply_cooldown defaultConfig ++
          (get_data defaultConfig true "20230104"
            (fun _ => HttpAttempt.resp 404 "")).effects⟩ ∧
    process_item defaultConfig (fun _ => 0) (fun _ => HttpAttempt.exn)
        ⟨Option.none, []⟩ "20230106" =
      ⟨⟨Option.none, []⟩, 0,
        apply_cooldown defaultConfig ++
          (get_data defaultConfig true "20230106"
            (fun _ => HttpAttempt.exn)).effects⟩ := by
  constructor
  · exact (C4_day_completion defaultConfig (fun _ => 0)
      (fun _ => HttpAttempt.resp 404 "") ⟨Option.none, []⟩ "20230104").1 (by decide)
  · exact (C4_day_completion defaultConfig (fun _ => 0)
      (fun _ => HttpAttempt.exn) ⟨Option.none, []⟩ "20230106").2 (by decide)

/-- C5: a fetch whose first attempt receives HTTP 404 returns the NotFound
outcome `(404, None)` immediately — exactly one attempt, no retry sleeps,
a single GET. -/
theorem C5_notfound_short_circuit (cfg : Config) (targetIsIndex : Bool)
    (indexer : String) (responses : Nat → HttpAttempt) (t : String)
    (h : responses 0 = HttpAttempt.resp 404 t) :
    get_data cfg targetIsIndex indexer responses =
      ⟨404, Option.none, 1,
        [Effect.httpGet (if targetIsIndex then cfg.api_base_url ++ indexer
                         else cfg.law_base_url ++ indexer)]⟩ := by
  unfold get_data get_data_go
  simp [h]

/-- C5 witness: a 404 on the first attempt under the default
configuration. -/
theorem C5_notfound_short_circuit_witness :
    get_data defaultConfig true "20230109" (fun _ => HttpAttempt.resp 404 "gone") =
      ⟨404, Option.none, 1,
        [Effect.httpGet (if true then defaultConfig.api_base_url ++ "20230109"
                         else defaultConfig.law_base_url ++ "20230109")]⟩ :=
  C5_notfound_short_circuit defaultConfig true "20230109"
    (fun _ => HttpAttempt.resp 404 "gone") "gone" rfl

/-- C6: `get_values_for_date` returns `None` exactly when no stored row
bounds the requested date from below and none bounds it from above (i.e.
the date lies outside the stored min/max publication-date range, or the
store is empty); when it returns rows, they are precisely the stored rows
whose publication date equals the requested date (possibly none). -/
theorem C6_records_for_date (data : List LawInfo) (date : Int) :
    (get_values_for_date data date = Option.none ↔
      ¬ ∃ lo ∈ data, ∃ hi ∈ data,
        lo.fecha_publicacion ≤ date ∧ date ≤ hi.fecha_publicacion) ∧
    (∀ l, get_values_for_date data date = some l →
      ∀ r : LawInfo, r ∈ l ↔ (r ∈ data ∧ r.fecha_publicacion = date)) := by
  constructor
  · rw [gvfd_eq_none_iff]
    cases data with
    | nil => simp
    | cons r0 rest =>
      have hne : (r0 :: rest : List LawInfo) ≠ [] := by simp
      have hcolne : (r0 :: rest).map (fun r => r.fecha_publicacion) ≠ [] := by simp
      have hmax := le_colMax_iff _ hcolne date
      have hmin := colMin_le_iff _ hcolne date
      have hexhi : (∃ x ∈ (r0 :: rest).map (fun r => r.fecha_publicacion), date ≤ x) ↔
          (∃ hi ∈ r0 :: rest, date ≤ hi.fecha_publicacion) := by
        constructor
        · rintro ⟨x, hx, hdx⟩
          obtain ⟨r, hr, rfl⟩ := List.mem_map.mp hx
          exact ⟨r, hr, hdx⟩
        · rintro ⟨r, hr, hdr⟩
          exact ⟨r.fecha_publicacion, List.mem_map_of_mem _ hr, hdr⟩
      have hexlo : (∃ x ∈ (r0 :: rest).map (fun r => r.fecha_publicacion), x ≤ date) ↔
          (∃ lo ∈ r0 :: rest, lo.fecha_publicacion ≤ date) := by
        constructor
        · rintro ⟨x, hx, hdx⟩
          obtain ⟨r, hr, rfl⟩ := List.mem_map.mp hx
          exact ⟨r, hr, hdx⟩
        · rintro ⟨r, hr, hdr⟩
          exact ⟨r.fecha_publicacion, List.mem_map_of_mem _ hr, hdr⟩
      constructor
      · rintro (h | h | h) ⟨lo, hlo, hi, hhi, hdlo, hdhi⟩
        · exact hne h
        · exact absurd (hmax.mpr (hexhi.mpr ⟨hi, hhi, hdhi⟩)) (not_le.mpr h)
        · exact absurd (hmin.mpr (hexlo.mpr ⟨lo, hlo, hdlo⟩)) (not_le.mpr h)
      · intro hno
        by_cases h1 : date ≤ colMax ((r0 :: rest).map (fun r => r.fecha_publicacion))
        · by_cases h2 : colMin ((r0 :: rest).map (fun r => r.fecha_publicacion)) ≤ date
          · obtain ⟨hi, hhi, hdhi⟩ := hexhi.mp (hmax.mp h1)
            obtain ⟨lo, hlo, hdlo⟩ := hexlo.mp (hmin.mp h2)
            exact absurd ⟨lo, hlo, hi, hhi, hdlo, hdhi⟩ hno
          · exact Or.inr (Or.inr (not_le.mp h2))
        · exact Or.inr (Or.inl (not_le.mp h1))
  · intro l hl r
    have hfl := gvfd_eq_some data date l hl
    subst hfl
    simp [List.mem_filter]

/-- C6 witness: a one-row store queried at its own date. -/
theorem C6_records_for_date_witness :
    ({ fecha_publicacion := 20230101 } : LawInfo) ∈
        [({ fecha_publicacion := 20230101 } : LawInfo)] ↔
      (({ fecha_publicacion := 20230101 } : LawInfo) ∈
          [({ fecha_publicacion := 20230101 } : LawInfo)] ∧
        ({ fecha_publicacion := 20230101 } : LawInfo).fecha_publicacion = 20230101) :=
  (C6_records_for_date [{ fecha_publicacion := 20230101 }] 20230101).2
    [{ fecha_publicacion := 20230101 }] (by decide) { fecha_publicacion := 20230101 }

/-- C7: `date_to_timestamp` builds a NAIVE datetime and calls
`timestamp()`, which interprets it in the local timezone; at a fixed local
offset of +3600 seconds the function returns the local-midnight epoch
1710457200 for "20240315", diverging from the UTC-midnight epoch
1710460800 that its own docstring example and the spec require; only at
offset 0 does it match, and a failing parse returns 0. -/
theorem C7_timestamp_tz_divergence :
    date_to_timestamp 3600 "20240315" = 1710457200 ∧
    date_to_timestamp 0 "20240315" = 1710460800 ∧
    date_to_timestamp 3600 "20240315" ≠ 1710460800 ∧
    date_to_timestamp 0 "" = 0 := by
  decide

/-- C8 (counterexample): with concurrency configured greater than 1
(`concurrent_requests = 5`) the trace of a processed item STILL begins
with the cooldown sleep — `_process_item` calls `apply_cooldown`
unconditionally, and `apply_cooldown` consults no concurrency setting. -/
theorem C8_counterexample :
    (process_item { defaultConfig with concurrent_requests := 5, cooldown_seconds := 1 }
        (fun _ => 0) (fun _ => HttpAttempt.resp 404 "") ⟨Option.none, []⟩
        "20240101").effects.head? = some (Effect.sleep 1) := by
  decide

/-- C8 (amended): the pre-request cooldown sleep precedes the first fetch
attempt of every processed item regardless of the configured concurrency:
the effect trace always starts with `sleep cooldown_seconds`, and changing
`concurrent_requests` does not alter the behaviour of `_process_item` at
all. -/
theorem C8_cooldown_always_applied (cfg : Config) (saveCount : String → Nat)
    (responses : Nat → HttpAttempt) (st : CrawlState) (indexer : String) (n : Nat) :
    (process_item cfg saveCount responses st indexer).effects =
      Effect.sleep cfg.cooldown_seconds ::
        (get_data cfg true indexer responses).effects ∧
    process_item { cfg with concurrent_requests := n } saveCount responses st indexer =
      process_item cfg saveCount responses st indexer := by
  constructor
  · unfold process_item
    by_cases h200 : ((get_data cfg true indexer responses).status == 200 &&
        textTruthy (get_data cfg true indexer responses).text) = true
    · simp only [h200, if_true]; rfl
    · by_cases h0 : ((get_data cfg true indexer responses).status != 0) = true
      · simp only [h200, Bool.false_eq_true, if_false, h0, if_true]; rfl
      · simp only [h200, Bool.false_eq_true, if_false, h0, if_false]; rfl
  · unfold process_item get_data
    rw [get_data_go_congr { cfg with concurrent_requests := n } cfg
      (if true then ({ cfg with concurrent_requests := n } : Config).api_base_url ++ indexer
       else ({ cfg with concurrent_requests := n } : Config).law_base_url ++ indexer)
      responses rfl]
    rfl

/-- C9 (counterexample): `save_items` persists a record that has no
`identificador` key at all — the row is written (count 1) and its
identifier lookup is empty, contradicting the invariant that such a record
must not be persisted. -/
theorem C9_counterexample :
    (save_items csvHeaders [[("departamento_codigo", PVal.s "A")]]).2 = 1 ∧
    (save_items csvHeaders [[("departamento_codigo", PVal.s "A")]]).1 =
      [[("departamento_codigo", PVal.s "A")]] ∧
    dget [("departamento_codigo", PVal.s "A")] "identificador" = Option.none := by
  decide

/-- C9 (amended): `save_items` performs no identifier validation: every
record of a nonempty batch is persisted after schema-key filtering and the
full batch length is returned; in particular a record with a missing
identifier is still written, and its stored row also lacks the
identifier. -/
theorem C9_no_identifier_validation (headers : List String) (items : List PDict)
    (item : PDict) (hmem : item ∈ items)
    (hid : dget item "identificador" = Option.none) :
    filterToHeaders headers item ∈ (save_items headers items).1 ∧
    dget (filterToHeaders headers item) "identificador" = Option.none ∧
    (save_items headers items).2 = items.length := by
  have hne : items.isEmpty = false := by
    cases items with
    | nil => cases hmem
    | cons a as => rfl
  unfold save_items
  rw [hne]
  exact ⟨List.mem_map_of_mem _ hmem, dget_filter_none headers item _ hid, rfl⟩

/-- C9 witness: the amended theorem at a one-record batch missing the
identifier. -/
theorem C9_no_identifier_validation_witness :
    filterToHeaders csvHeaders [("titulo", PVal.s "t")] ∈
      (save_items csvHeaders [[("titulo", PVal.s "t")]]).1 ∧
    dget (filterToHeaders csvHeaders [("titulo", PVal.s "t")]) "identificador" =
      Option.none ∧
    (save_items csvHeaders [[("titulo", PVal.s "t")]]).2 =
      [[("titulo", PVal.s "t")]].length :=
  C9_no_identifier_validation csvHeaders [[("titulo", PVal.s "t")]]
    [("titulo", PVal.s "t")] (by simp) (by decide)

/-- C10 (counterexample): in a document whose selected codigo-1 seccion
CONTAINS a codigo-2 seccion, the only departamento (and its item) lives
under the codigo-2 seccion, yet parse emits exactly one record carrying
that departamento — `seccion_item.findall(".//departamento")` descends
through the nested non-"1" seccion, so items under a seccion with another
codigo value DO contribute records, refuting the middle clause of the
claim. -/
theorem C10_counterexample :
    (parse 0 nestedSeccionXml).map (fun r => dget r "departamento_codigo") =
      [some (PVal.s "NB")] ∧
    attrD nestedSub "codigo" "" = "2" ∧
    findallTag nestedSub "departamento" = [nestedDep] :=
  ⟨by decide, by decide, rfl⟩

/-- C10 (amended): per diario, parse emits exactly the records of the last
`seccion` descendant with `codigo = "1"`, so (a) any section the selection
uses is a codigo-1 seccion of its diario; (b) inside ANY document, a
diario none of whose seccion descendants has codigo "1" contributes no
records; (c) for a well-formed document, parse is precisely the
concatenation of the per-diario contributions; and (d) a document none of
whose sections has codigo "1" parses to no records at all.  The original
claim fails only in that the departamento scan descends the WHOLE selected
subtree, so a seccion with another codigo nested inside the selected one
still contributes its items. -/
theorem C10_seccion_filter :
    (∀ d s : Xml, selectSeccion d = some s →
      s ∈ findallTag d "seccion" ∧ attrD s "codigo" "" = "1") ∧
    (∀ (meta : PDict) (d : Xml),
      (∀ s ∈ findallTag d "seccion", ¬ attrD s "codigo" "" = "1") →
      diarioRecords meta d = []) ∧
    (∀ (tz : Int) (root sc : Xml) (fecha : String),
      statusCodeElem root = some sc → sc.text = some "200" →
      fechaArg (metadataDict root) = some fecha →
      parse tz root =
        (findallTag root "diario").flatMap
          (diarioRecords
            (("timestamp", PVal.i (date_to_timestamp tz fecha)) ::
              metadataDict root))) ∧
    (∀ (tz : Int) (root : Xml),
      (∀ d ∈ findallTag root "diario", ∀ s ∈ findallTag d "seccion",
        ¬ attrD s "codigo" "" = "1") →
      parse tz root = []) := by
  refine ⟨?_, ?_, ?_, ?_⟩
  · intro d s h
    exact selectSeccion_eq_some d s h
  · intro meta d h
    unfold diarioRecords
    rw [selectSeccion_eq_none d h]
  · intro tz root sc fecha hsc ht hfa
    unfold parse
    rw [hsc]
    dsimp only
    rw [if_pos (show (sc.text == some "200") = true from by rw [ht]; rfl)]
    rw [hfa]
  · intro tz root h
    unfold parse
    cases hsc : statusCodeElem root with
    | none => rfl
    | some sc =>
      dsimp only
      by_cases ht : (sc.text == some "200") = true
      · rw [if_pos ht]
        cases hfa : fechaArg (metadataDict root) with
        | none => rfl
        | some fecha =>
          dsimp only
          rw [List.flatMap_eq_nil_iff]
          intro d hd
          unfold diarioRecords
          rw [selectSeccion_eq_none d (fun s hs => h d hd s hs)]
      · rw [if_neg ht]

/-- C10 witness: the selection applied to a diario whose only section has
codigo "1" picks that section; a diario whose only section has codigo "2"
(and holds an item) contributes no records; a valid document decomposes
into its per-diario contributions; and a document whose only section has
codigo "2" parses to no records. -/
theorem C10_seccion_filter_witness :
    (goodSeccion ∈ findallTag goodDiario "seccion" ∧
      attrD goodSeccion "codigo" "" = "1") ∧
    diarioRecords [] badDiario = [] ∧
    parse 0 badSectionXml =
      (findallTag badSectionXml "diario").flatMap
        (diarioRecords
          (("timestamp", PVal.i (date_to_timestamp 0 "")) ::
            metadataDict badSectionXml)) ∧
    parse 0 badSectionXml = [] := by
  refine ⟨C10_seccion_filter.1 goodDiario goodSeccion rfl, ?_, ?_, ?_⟩
  · refine C10_seccion_filter.2.1 [] badDiario ?_
    intro s hs
    rw [show findallTag badDiario "seccion" = [otherSeccion] from rfl,
      List.mem_singleton] at hs
    subst hs
    decide
  · exact C10_seccion_filter.2.2.1 0 badSectionXml
      (Xml.elem "code" [] (some "200") []) "" rfl rfl rfl
  · refine C10_seccion_filter.2.2.2 0 badSectionXml ?_
    intro d hd s hs
    rw [show findallTag badSectionXml "diario" = [badDiario] from rfl,
      List.mem_singleton] at hd
    subst hd
    rw [show findallTag badDiario "seccion" = [otherSeccion] from rfl,
      List.mem_singleton] at hs
    subst hs
    decide

end GitLegal
